import Mathlib

/-!
Verification development for the overseer repository core
(`pkg/domain/model/alert.go` and the CLI `run` command).

The Go code is shallowly embedded:

* `time.Time` values are modelled by their instant, as nanoseconds since
  the Unix epoch (`GoTime`).  Go's zero `time.Time` (January 1, year 1,
  00:00:00 UTC) is `goZeroTime`; `Time.IsZero` is equality with it.
* The dynamic (`any`) timestamp field of `AlertBody` is a tagged variant
  `TsValue` mirroring the `switch` in `NewAlert`: `nil`, `string`,
  `int`, `float64`, `int64` (which, like every type other than the three
  matched ones, falls into the `default` arm), and a catch-all for every
  other dynamic type.  A `float64` value is carried as the exact
  fraction `num / den` it denotes (every finite binary floating-point
  number is such a fraction); the `float64` subtraction and
  multiplication performed by `NewAlert` round to nearest (ties to
  even), modelled exactly by `roundFloat`, and the `int64(...)`
  conversions truncate toward zero (`Int.tdiv`).
* Side effects (`time.Now`, `uuid.NewV7`, `JobIDFromCtx`) are passed in
  as explicit parameters; a Go `panic` is the `fatal` outcome of
  `GoResult`.
* `time.Parse(time.RFC3339, s)` is modelled by `parseRFC3339`.  Go first
  tries a strict RFC 3339 fast path and, when that fails, falls back to
  the lenient general layout parser; since the general parser accepts
  every input the fast path accepts, with the same result, the
  composition equals the general parser alone, and `parseRFC3339`
  implements that general semantics (including its deviations from
  RFC 3339: single-digit hour, comma as fractional separator, no range
  check on the numeric zone offset), with the civil-date-to-epoch-day
  conversion `daysFromCivil`.
* The CLI `run` command action is modelled as a step-trace semantics
  (`runCommand`): each effectful operation appends a `RunStep` to the
  trace, and the environment `RunEnv` supplies each operation's outcome.
-/

namespace Overseer

/-- An absolute instant, as nanoseconds since the Unix epoch.  This models a
Go `time.Time` value up to its instant (locations are irrelevant to all
properties considered here, and `Time.IsZero` is an instant-level test). -/
structure GoTime where
  nanos : Int
deriving DecidableEq, Repr

/-- Model of Go `time.Unix(sec, nsec)`: the instant `sec` seconds and `nsec`
nanoseconds since the Unix epoch (Go normalizes out-of-range `nsec`; the
instant is `sec * 1e9 + nsec` in all cases). -/
def goUnix (sec nsec : Int) : GoTime :=
  ⟨sec * 1000000000 + nsec⟩

/-- The instant of Go's zero `time.Time`: January 1, year 1, 00:00:00 UTC,
which is 62135596800 seconds before the Unix epoch. -/
def goZeroTime : GoTime :=
  goUnix (-62135596800) 0

/-- Truncation of the fraction `num / den` toward zero, as performed by Go's
`int64(v)` conversion of a `float64`.  `Int.tdiv` is T-division, which
truncates the quotient toward zero. -/
def truncTowardZero (num : Int) (den : Nat) : Int :=
  Int.tdiv num den

/-- Floor of the fraction `num / den` (for `den > 0`): `Int.ediv` rounds the
quotient toward negative infinity when the divisor is positive. -/
def floorDiv (num : Int) (den : Nat) : Int :=
  Int.ediv num den

/-- Number of binary digits of `n` (`0` for `n = 0`), computed by a binary
search over the exponent: the fold greedily assembles the largest `k`
with `2 ^ k ≤ n`.  Correct for every `n < 2 ^ 4096`, which covers the
entire finite `float64` range with ample margin. -/
def bitlen (n : Nat) : Nat :=
  if n = 0 then 0 else
    (List.foldl (fun acc w => if (1 <<< (acc + w)) ≤ n then acc + w else acc) 0
      [2048, 1024, 512, 256, 128, 64, 32, 16, 8, 4, 2, 1]) + 1

/-- IEEE-754 binary64 rounding (round to nearest, ties to even) of the exact
rational `n / d` (`d > 0`), returned as the exact rational value of the
resulting `float64` (the pair need not be in lowest terms; its value is
what matters).  `k` is `⌊log2 |n/d|⌋`; the unit in the last place is
`2 ^ (k - 52)`, clamped to `2 ^ (-1074)` for subnormals; the value is
rounded to the nearest multiple `m` of that ulp, ties to the even `m`.
Values at or beyond the overflow threshold `2 ^ 1024` (which a real
`float64` cannot hold) are outside the modelled domain and are returned
rounded without saturation. -/
def roundFloat (n : Int) (d : Nat) : Int × Nat :=
  if n = 0 then (0, 1) else
    let a : Nat := n.natAbs
    let sgn : Int := if 0 ≤ n then 1 else -1
    let k0 : Int := (bitlen a : Int) - (bitlen d : Int)
    let geK : Int → Bool := fun k =>
      if 0 ≤ k then decide (d <<< k.toNat ≤ a) else decide (d ≤ a <<< (-k).toNat)
    let k : Int := if geK (k0 + 1) then k0 + 1 else if geK k0 then k0 else k0 - 1
    let e : Int := max (k - 52) (-1074)
    let N : Nat := if e ≤ 0 then a <<< (-e).toNat else a
    let D : Nat := if e ≤ 0 then d else d <<< e.toNat
    let q : Nat := N / D
    let r : Nat := N % D
    let m : Nat := if 2 * r < D then q else if D < 2 * r then q + 1
      else if q % 2 = 0 then q else q + 1
    if 0 ≤ e then ((m <<< e.toNat : Nat) * sgn, 1) else (sgn * m, 1 <<< (-e).toNat)

/-- The `float64` product computed by the `case float64` arm of `NewAlert`:
`(v - float64(sec)) * 1e9`, where `v` is the float whose exact value is
`num / den` and `sec = int64(v)`.  The `int64`-to-`float64` conversion,
the subtraction and the multiplication each round to nearest
(`roundFloat`); the Go constant `1e9` is exactly representable, so it
contributes no rounding of its own.  Returned as the exact rational
value of the resulting `float64`. -/
def goFloatProd (num : Int) (den : Nat) : Int × Nat :=
  let fsec := roundFloat (truncTowardZero num den) 1
  let diff := roundFloat (num * fsec.2 - fsec.1 * den) (den * fsec.2)
  roundFloat (diff.1 * 1000000000) diff.2

/-- The `case float64` arm of `NewAlert` (`alert.go`):
`sec := int64(v); nsec := int64((v - float64(sec)) * 1e9); time.Unix(sec, nsec)`.
The float value `v` is the exact fraction `num / den`; both `int64(...)`
conversions truncate toward zero, and the intermediate `float64`
arithmetic rounds to nearest (`goFloatProd`). -/
def goFloatTime (num : Int) (den : Nat) : GoTime :=
  goUnix (truncTowardZero num den)
    (truncTowardZero (goFloatProd num den).1 (goFloatProd num den).2)

/-- Modelled from the spec: timestamp resolution rule (d), "split into whole
seconds and a fractional remainder converted to nanoseconds
(`nsec = (value - floor(value)) * 1e9`)".  The whole seconds are
`floor(v)`; the fractional remainder `v - floor(v)` is nonnegative, so
truncating its nanosecond value toward zero is plain truncation.  This
definition exists only to be compared with `goFloatTime`, which is the
code's trunc-toward-zero computation. -/
def specFloatTime (num : Int) (den : Nat) : GoTime :=
  let sec : Int := floorDiv num den
  let nsec : Int := truncTowardZero ((num - sec * den) * 1000000000) den
  goUnix sec nsec

/-- Numeric value of a decimal digit character. -/
def dval (c : Char) : Nat :=
  c.toNat - '0'.toNat

/-- Two decimal digits, as in Go's `parseUint` over a two-byte slice. -/
def digits2 (a b : Char) : Option Nat :=
  if a.isDigit && b.isDigit then some (10 * dval a + dval b) else none

/-- Four decimal digits, as in Go's `parseUint` over a four-byte slice. -/
def digits4 (a b c d : Char) : Option Nat :=
  if a.isDigit && b.isDigit && c.isDigit && d.isDigit then
    some (1000 * dval a + 100 * dval b + 10 * dval c + dval d)
  else none

/-- Gregorian leap-year rule, as Go's `isLeap`. -/
def isLeap (year : Nat) : Bool :=
  year % 4 == 0 && (year % 100 != 0 || year % 400 == 0)

/-- Days in a month, as Go's `daysIn` (February depends on the leap rule). -/
def daysIn (month year : Nat) : Nat :=
  if month == 2 then
    if isLeap year then 29 else 28
  else if month == 4 || month == 6 || month == 9 || month == 11 then 30
  else 31

/-- Days from the Unix epoch (1970-01-01) to the civil date `year-month-day`,
negative for earlier dates.  Standard era-based civil calendar conversion;
all intermediate divisions have positive divisors and nonnegative
numerators after the era shift, so `Int.ediv` computes them exactly. -/
def daysFromCivil (year month day : Nat) : Int :=
  let y : Int := if month ≤ 2 then (year : Int) - 1 else (year : Int)
  let era : Int := Int.ediv y 400
  let yoe : Int := y - era * 400
  let mp : Int := if month ≤ 2 then (month : Int) + 9 else (month : Int) - 3
  let doy : Int := Int.ediv (153 * mp + 2) 5 + (day : Int) - 1
  let doe : Int := yoe * 365 + Int.ediv yoe 4 - Int.ediv yoe 100 + doy
  era * 146097 + doe - 719468

/-- Go's `getnum(value, fixed=false)`: one or two decimal digits (two when
the second character is also a digit).  The general layout parser uses
this for the hour field of the RFC 3339 layout, which is why a
single-digit hour is accepted. -/
def getnum1or2 (cs : List Char) : Option (Nat × List Char) :=
  match cs with
  | a :: b :: rest =>
    if a.isDigit then
      if b.isDigit then some (10 * dval a + dval b, rest) else some (dval a, b :: rest)
    else none
  | [a] => if a.isDigit then some (dval a, []) else none
  | [] => none

/-- Fractional-second parse of Go's layout parser: if the input starts with
`'.'` or `','` (the general parser accepts both) followed by at least one
digit, consume the maximal digit run; the nanosecond value is built from
the first nine digits, scaled up when fewer than nine are present
(further digits are consumed but ignored, as in `parseNanoseconds`).
Returns the nanoseconds and the unconsumed remainder. -/
def parseFrac (cs : List Char) : Nat × List Char :=
  match cs with
  | c :: d :: rest =>
    if (c = '.' || c = ',') && d.isDigit then
      let ds := d :: rest.takeWhile (fun x => x.isDigit)
      let used := ds.take 9
      let n := used.foldl (fun a x => 10 * a + dval x) 0
      (n * 10 ^ (9 - used.length), rest.dropWhile (fun x => x.isDigit))
    else (0, c :: d :: rest)
  | _ => (0, cs)

/-- Zone parse of Go's layout parser for `Z07:00` (`stdISO8601ColonTZ`),
combined with the end-of-input check (the zone is the last layout
element, so the remainder must be empty): exactly `"Z"` (UTC), or exactly
six characters `±hh:mm` with two-digit fields.  The general parser does
not range-check the offset components (unlike the strict fast path), so
e.g. `+25:00` is accepted.  Returns the zone offset east of UTC in
seconds. -/
def parseZone (cs : List Char) : Option Int :=
  match cs with
  | ['Z'] => some 0
  | [sgn, a, b, ':', c, d] =>
    match digits2 a b, digits2 c d with
    | some hr, some mm =>
      if sgn = '+' then some ((hr : Int) * 3600 + (mm : Int) * 60)
      else if sgn = '-' then some (-((hr : Int) * 3600 + (mm : Int) * 60))
      else none
    | _, _ => none
  | _ => none

/-- Model of Go `time.Parse(time.RFC3339, s)`.  Go tries a strict RFC 3339
fast path first and falls back to the general layout parser for
`"2006-01-02T15:04:05Z07:00"`; the general parser accepts everything the
fast path accepts, with the same result, so the composition equals the
general parser, modelled here: four-digit year, two-digit month and day,
literal separators with an uppercase `T`, a one-or-two-digit hour
(lenient), two-digit minute and second, an optional fractional second
with `'.'` or `','` (lenient), and a `Z` or `±hh:mm` zone without offset
range checks (lenient); month in `1..12`, day in
`1..daysIn(month, year)`, hour `≤ 23`, minute and second `≤ 59`.
On success, the parsed instant (zone offset subtracted). -/
def parseRFC3339 (s : String) : Option GoTime :=
  match s.toList with
  | y1 :: y2 :: y3 :: y4 :: '-' :: mo1 :: mo2 :: '-' :: d1 :: d2 :: 'T' :: rest =>
    match digits4 y1 y2 y3 y4, digits2 mo1 mo2, digits2 d1 d2 with
    | some year, some month, some day =>
      match getnum1or2 rest with
      | some (hour, rest1) =>
        match rest1 with
        | ':' :: mi1 :: mi2 :: ':' :: s1 :: s2 :: rest2 =>
          match digits2 mi1 mi2, digits2 s1 s2 with
          | some minute, some second =>
            if month < 1 || 12 < month || day < 1 || daysIn month year < day ||
                23 < hour || 59 < minute || 59 < second then none
            else
              let fr := parseFrac rest2
              match parseZone fr.2 with
              | some off =>
                some ⟨(daysFromCivil year month day * 86400 + (hour : Int) * 3600 +
                  (minute : Int) * 60 + (second : Int) - off) * 1000000000 + (fr.1 : Int)⟩
              | none => none
          | _, _ => none
        | _ => none
      | none => none
    | _, _, _ => none
  | _ => none

/-- The dynamic (`any`) value held by `AlertBody.Timestamp`, as discriminated
by the `switch v := body.Timestamp.(type)` in `NewAlert`: Go `nil`, a
`string`, an `int`, a `float64` (carried as the exact fraction
`num / den` it denotes, `den > 0` for meaningful values), an `int64`
(a distinct dynamic type that the switch's `case int` does NOT match, so
it falls into the `default` arm; it stands in for all the integer types
other than `int`), or any other dynamic type (`other`), which the
`default` arm likewise rejects. -/
inductive TsValue where
  | nil : TsValue
  | str (s : String) : TsValue
  | int (v : Int) : TsValue
  | float (num : Int) (den : Nat) : TsValue
  | int64 (v : Int) : TsValue
  | other : TsValue
deriving DecidableEq, Repr

/-- Go `AlertBody` (`alert.go`): title, description, polymorphic timestamp,
and the open attribute map.  The attribute payload is opaque to the alert
model, so it is a type parameter. -/
structure AlertBody (α : Type) where
  title : String
  description : String
  timestamp : TsValue
  attrs : α
deriving DecidableEq, Repr

/-- Schema version constant `AlertSchemaVersion` of `alert.go`. -/
def AlertSchemaVersion : String := "v0"

/-- Go `Alert` (`alert.go`): the metadata fields plus the embedded
`AlertBody`.  The alert's own `Timestamp` is an absolute instant. -/
structure Alert (α : Type) where
  id : String
  version : String
  jobID : String
  timestamp : GoTime
  body : AlertBody α
deriving DecidableEq, Repr

/-- The error values produced by `NewAlert` / `AlertBody.Validate`, named as
in the spec's error taxonomy.  `malformedTimestamp` carries the offending
string (`goerr ... .With("timestamp", v)` in the code); `missingTitle` is
the `"title is required"` error; `unsupportedTimestampType` is the
`default` arm's error. -/
inductive AlertError where
  | malformedTimestamp (value : String) : AlertError
  | unsupportedTimestampType : AlertError
  | missingTitle : AlertError
deriving DecidableEq, Repr

/-- Outcome of a Go computation that may return a value, return an error, or
panic (`fatal`). -/
inductive GoResult (ε : Type) (α : Type) where
  | ok (a : α) : GoResult ε α
  | err (e : ε) : GoResult ε α
  | fatal : GoResult ε α
deriving DecidableEq, Repr

/-- Go `NewAlertID` (`alert.go`): the outcome of `uuid.NewV7()` is supplied
as `gen`; on error the function panics (`fatal`), so its error type is
`Empty` — it can never return an error value. -/
def NewAlertID (gen : Except String String) : GoResult Empty String :=
  match gen with
  | .ok id => .ok id
  | .error _ => .fatal

/-- Go `AlertBody.Validate` (`alert.go`): an empty title is the only
validation failure. -/
def AlertBody.Validate {α : Type} (body : AlertBody α) : Option AlertError :=
  if body.title = "" then some .missingTitle else none

/-- The timestamp-resolution `switch` of `NewAlert` (`alert.go`), with the
surrounding `nil` test: `now` is the `time.Now()` of the `nil` branch. -/
def resolveTimestamp (now : GoTime) (tv : TsValue) : Except AlertError GoTime :=
  match tv with
  | .nil => .ok now
  | .str s =>
    match parseRFC3339 s with
    | some t => .ok t
    | none => .error (.malformedTimestamp s)
  | .int v => .ok (goUnix v 0)
  | .float num den => .ok (goFloatTime num den)
  | .int64 _ => .error .unsupportedTimestampType
  | .other => .error .unsupportedTimestampType

/-- Go `NewAlert` (`alert.go`).  Effects are explicit parameters: `jobID` is
the `JobIDFromCtx(ctx)` value, `idGen` the outcome of `uuid.NewV7()`
inside `NewAlertID`, `now1` the `time.Now()` of the `nil`-timestamp
branch, `now2` the `time.Now()` of the zero-timestamp fallback.  The
source order is preserved: resolve the timestamp (early error returns),
build the alert (calling `NewAlertID`, which panics on generator
failure), substitute `now2` if the alert's timestamp is the zero instant,
then validate the body (error return), else return the alert. -/
def NewAlert {α : Type} (jobID : String) (idGen : Except String String)
    (now1 now2 : GoTime) (body : AlertBody α) : GoResult AlertError (Alert α) :=
  match resolveTimestamp now1 body.timestamp with
  | .error e => .err e
  | .ok ts =>
    match NewAlertID idGen with
    | .fatal => .fatal
    | .err e => e.elim
    | .ok aid =>
      let x : Alert α :=
        { id := aid, version := AlertSchemaVersion, jobID := jobID,
          timestamp := ts, body := body }
      let x' := if x.timestamp = goZeroTime then { x with timestamp := now2 } else x
      match body.Validate with
      | some e => .err e
      | none => .ok x'

/-- One observable step of the CLI `run` command action (`runCommand` in the
CLI source).  Reading the query directory, configuring the BigQuery and
Pub/Sub clients, opening a query file and running the tasks are I/O;
validating the target and the task list is pure. -/
inductive RunStep where
  | readQueryDir : RunStep
  | configureBigQuery : RunStep
  | configurePubSub : RunStep
  | validateTarget : RunStep
  | openQueryFile (f : String) : RunStep
  | validateTasks : RunStep
  | runTasks : RunStep
deriving DecidableEq, Repr

/-- Whether a `RunStep` performs I/O (filesystem access or external-client
configuration / invocation). -/
def isIOStep : RunStep → Bool
  | .readQueryDir => true
  | .configureBigQuery => true
  | .configurePubSub => true
  | .validateTarget => false
  | .openQueryFile _ => true
  | .validateTasks => false
  | .runTasks => true

/-- Outcome of `usecase.RunTasks`: success, the no-tasks-selected failure
(task selection against the target happens inside `RunTasks`), or some
other task-execution failure. -/
inductive RunTasksOutcome where
  | ok : RunTasksOutcome
  | noTasksSelected : RunTasksOutcome
  | failed (msg : String) : RunTasksOutcome
deriving DecidableEq, Repr

/-- The errors the `run` command action can return, one constructor per
return site of `runCommand` in the CLI source. -/
inductive RunError where
  | queryDirUnreadable (msg : String) : RunError
  | noQueryFiles : RunError
  | bqConfigError (msg : String) : RunError
  | pubsubConfigError (msg : String) : RunError
  | invalidTarget (msg : String) : RunError
  | openFileError (f : String) : RunError
  | newTaskError (f : String) : RunError
  | invalidTasks (msg : String) : RunError
  | noTasksSelected : RunError
  | taskRunFailure (msg : String) : RunError
deriving DecidableEq, Repr

/-- Environment supplying the outcome of every effectful or externally
defined operation the `run` command action performs:
`listQueryFiles(queryDir)`, `bq.Configure`, `pubsub.Configure`,
`target.Validate()` (`some msg` = invalid), `os.Open` per file,
`model.NewTask` per file, `tasks.Validate()`, and `usecase.RunTasks`. -/
structure RunEnv where
  queryFiles : Except String (List String)
  bqConfigure : Except String Unit
  pubsubConfigure : Except String Unit
  targetError : Option String
  openFile : String → Except String Unit
  newTask : String → Except String Unit
  tasksError : Option String
  runTasks : RunTasksOutcome

/-- The per-file loop of the `run` command action: open each query file and
build its task, returning on the first failure.  Extends the given trace
with one `openQueryFile` step per attempted file. -/
def openAll (env : RunEnv) : List String → List RunStep → List RunStep × Option RunError
  | [], tr => (tr, none)
  | f :: fs, tr =>
    match env.openFile f with
    | .error _ => (tr ++ [RunStep.openQueryFile f], some (.openFileError f))
    | .ok _ =>
      match env.newTask f with
      | .error _ => (tr ++ [RunStep.openQueryFile f], some (.newTaskError f))
      | .ok _ => openAll env fs (tr ++ [RunStep.openQueryFile f])

/-- The part of the `run` command action that follows a successful target
validation: open every query file and build its task, validate the task
list, then run the tasks (where selection happens, so `NoTasksSelected`
arises here). -/
def runTail (env : RunEnv) (files : List String) (tr : List RunStep) :
    List RunStep × Option RunError :=
  match openAll env files tr with
  | (tr', some e) => (tr', some e)
  | (tr', none) =>
    match env.tasksError with
    | some m => (tr' ++ [RunStep.validateTasks], some (.invalidTasks m))
    | none =>
      match env.runTasks with
      | .ok => (tr' ++ [RunStep.validateTasks, RunStep.runTasks], none)
      | .noTasksSelected =>
        (tr' ++ [RunStep.validateTasks, RunStep.runTasks], some .noTasksSelected)
      | .failed m =>
        (tr' ++ [RunStep.validateTasks, RunStep.runTasks], some (.taskRunFailure m))

/-- The CLI `run` command action (`runCommand` in the CLI source), as a trace
semantics: returns the list of steps performed, in source order, and the
error outcome.  The source order is: list the query directory; fail if it
is unreadable or yields no files; configure the BigQuery client; configure
the Pub/Sub client; validate the target; then `runTail` (open every query
file and build its task, validate the task list, run the tasks). -/
def runCommand (env : RunEnv) : List RunStep × Option RunError :=
  match env.queryFiles with
  | .error m => ([RunStep.readQueryDir], some (.queryDirUnreadable m))
  | .ok files =>
    if files.isEmpty then ([RunStep.readQueryDir], some .noQueryFiles)
    else
      match env.bqConfigure with
      | .error m =>
        ([RunStep.readQueryDir, RunStep.configureBigQuery], some (.bqConfigError m))
      | .ok _ =>
        match env.pubsubConfigure with
        | .error m =>
          ([RunStep.readQueryDir, RunStep.configureBigQuery, RunStep.configurePubSub],
            some (.pubsubConfigError m))
        | .ok _ =>
          match env.targetError with
          | some m =>
            ([RunStep.readQueryDir, RunStep.configureBigQuery, RunStep.configurePubSub,
              RunStep.validateTarget], some (.invalidTarget m))
          | none =>
            runTail env files
              [RunStep.readQueryDir, RunStep.configureBigQuery, RunStep.configurePubSub,
                RunStep.validateTarget]

/-- Inversion of a successful `NewAlert`: the timestamp resolved, the ID
generator succeeded, the title is non-empty, and the returned alert's
fields are the constructed ones (with the zero-timestamp fallback). -/
lemma NewAlert_ok_inv {α : Type} {jobID : String} {idGen : Except String String}
    {now1 now2 : GoTime} {body : AlertBody α} {a : Alert α}
    (h : NewAlert jobID idGen now1 now2 body = GoResult.ok a) :
    ∃ ts, resolveTimestamp now1 body.timestamp = Except.ok ts ∧
      body.title ≠ "" ∧ a.body = body ∧ a.version = AlertSchemaVersion ∧
      a.jobID = jobID ∧ a.timestamp = (if ts = goZeroTime then now2 else ts) ∧
      ∃ aid, idGen = Except.ok aid ∧ a.id = aid := by
  unfold NewAlert at h
  rcases hres : resolveTimestamp now1 body.timestamp with e | ts <;> rw [hres] at h
  · simp at h
  · refine ⟨ts, rfl, ?_⟩
    rcases idGen with msg | aid <;> simp [NewAlertID] at h
    by_cases ht : body.title = "" <;> simp [AlertBody.Validate, ht] at h
    subst h
    by_cases hz : ts = goZeroTime <;> simp [hz, ht]

/-- Division congruence over `Nat`: two fractions with the same value have
the same quotient. -/
lemma nat_div_congr {m n a b : Nat} (ha : 0 < a) (hb : 0 < b) (h : m * b = n * a) :
    m / a = n / b := by
  have h1 : m / a = m * b / (a * b) := (Nat.mul_div_mul_right m a hb).symm
  rw [h1, h, Nat.mul_comm a b, Nat.mul_div_mul_right n b ha]

/-- Truncating division toward zero depends only on the value of the
fraction: if `a1 / a2 = b1 / b2` (cross-multiplied) with positive
denominators, the truncated quotients agree. -/
lemma tdiv_congr {a1 b1 : Int} {a2 b2 : Nat} (ha : 0 < a2) (hb : 0 < b2)
    (h : a1 * (b2 : Int) = b1 * (a2 : Int)) :
    Int.tdiv a1 (a2 : Int) = Int.tdiv b1 (b2 : Int) := by
  rcases a1 with m | m
  · have hb1 : 0 ≤ b1 := by
      rcases b1 with n | n
      · exact Int.ofNat_nonneg n
      · exfalso
        have hlhs : 0 ≤ (Int.ofNat m) * (b2 : Int) :=
          mul_nonneg (Int.ofNat_nonneg m) (Int.ofNat_nonneg b2)
        have hrhs : (Int.negSucc n) * (a2 : Int) < 0 := by
          apply mul_neg_of_neg_of_pos
          · exact Int.negSucc_lt_zero n
          · exact_mod_cast ha
        rw [h] at hlhs
        exact absurd hlhs (not_le.mpr hrhs)
    obtain ⟨n, rfl⟩ := Int.eq_ofNat_of_zero_le hb1
    have hN : m * b2 = n * a2 := by
      simp only [Int.ofNat_eq_coe] at h
      exact_mod_cast h
    show Int.ofNat (m / a2) = Int.ofNat (n / b2)
    exact congrArg Int.ofNat (nat_div_congr ha hb hN)
  · have hb1 : b1 < 0 := by
      rcases b1 with n | n
      · exfalso
        have hlhs : (Int.negSucc m) * (b2 : Int) < 0 := by
          apply mul_neg_of_neg_of_pos
          · exact Int.negSucc_lt_zero m
          · exact_mod_cast hb
        have hrhs : 0 ≤ (Int.ofNat n) * (a2 : Int) :=
          mul_nonneg (Int.ofNat_nonneg n) (Int.ofNat_nonneg a2)
        rw [h] at hlhs
        exact absurd hrhs (not_le.mpr hlhs)
      · exact Int.negSucc_lt_zero n
    rcases b1 with n | n
    · exact absurd hb1 (by exact not_lt.mpr (Int.ofNat_nonneg n))
    · have hN : (m + 1) * b2 = (n + 1) * a2 := by
        have h' : ((m : Int) + 1) * (b2 : Int) = ((n : Int) + 1) * (a2 : Int) := by
          rw [Int.negSucc_eq, Int.negSucc_eq] at h
          have := congrArg (fun z => -z) h
          simp only [neg_mul, neg_neg] at this
          exact this
        exact_mod_cast h'
      show -Int.ofNat (Nat.succ m / a2) = -Int.ofNat (Nat.succ n / b2)
      exact congrArg (fun k => -Int.ofNat k) (nat_div_congr ha hb hN)

/-- On nonnegative numerators with a natural denominator, floor division and
truncating division coincide. -/
lemma tdiv_eq_ediv_nonneg {num : Int} (den : Nat) (h : 0 ≤ num) :
    Int.ediv num (den : Int) = Int.tdiv num (den : Int) := by
  obtain ⟨m, rfl⟩ := Int.eq_ofNat_of_zero_le h
  rfl

/-- Errors produced by the `openAll` loop are only per-file open or
task-construction failures. -/
lemma openAll_snd_cases (env : RunEnv) :
    ∀ (fs : List String) (tr : List RunStep) (e : RunError),
      (openAll env fs tr).2 = some e →
      ∃ f, e = RunError.openFileError f ∨ e = RunError.newTaskError f := by
  intro fs
  induction fs with
  | nil => intro tr e h; simp [openAll] at h
  | cons f fs ih =>
    intro tr e h
    unfold openAll at h
    rcases hof : env.openFile f with m | u <;> rw [hof] at h
    · simp at h
      exact ⟨f, Or.inl h.symm⟩
    · rcases hnt : env.newTask f with m | u <;> rw [hnt] at h
      · simp at h
        exact ⟨f, Or.inr h.symm⟩
      · exact ih _ e h

/-- The post-validation tail of the `run` command never fails with
`InvalidTarget`. -/
lemma runTail_snd_ne_invalidTarget (env : RunEnv) (files : List String)
    (tr : List RunStep) (m : String) :
    (runTail env files tr).2 ≠ some (RunError.invalidTarget m) := by
  unfold runTail
  rcases ho : openAll env files tr with ⟨tr', oe⟩
  rcases oe with _ | e
  · rcases hk : env.tasksError with _ | km
    · rcases hr : env.runTasks with _ | _ | rm <;> simp
    · simp
  · simp only
    intro h
    simp at h
    obtain ⟨f, hf | hf⟩ := openAll_snd_cases env files tr e (by rw [ho]) <;>
      subst hf <;> exact absurd h (by simp)

/-- If the post-validation tail of the `run` command fails with
`NoTasksSelected`, the `RunTasks` invocation is in its trace. -/
lemma runTail_noTasksSelected_mem (env : RunEnv) (files : List String)
    (tr : List RunStep) :
    (runTail env files tr).2 = some RunError.noTasksSelected →
    RunStep.runTasks ∈ (runTail env files tr).1 := by
  unfold runTail
  rcases ho : openAll env files tr with ⟨tr', oe⟩
  rcases oe with _ | e
  · rcases hk : env.tasksError with _ | km
    · rcases hr : env.runTasks with _ | _ | rm <;> simp
    · simp
  · simp only
    intro h
    simp at h
    obtain ⟨f, hf | hf⟩ := openAll_snd_cases env files tr e (by rw [ho]) <;>
      subst hf <;> exact absurd h (by simp)

/-- Environment in which the `run` command reaches target validation and the
target is invalid: one query file, both clients configure successfully. -/
def envBadTarget : RunEnv where
  queryFiles := Except.ok ["q.sql"]
  bqConfigure := Except.ok ()
  pubsubConfigure := Except.ok ()
  targetError := some "empty id in target"
  openFile := fun _ => Except.ok ()
  newTask := fun _ => Except.ok ()
  tasksError := none
  runTasks := RunTasksOutcome.ok

/-- Environment in which the `run` command runs to task execution and the
selection inside `RunTasks` matches no task. -/
def envNoTasks : RunEnv where
  queryFiles := Except.ok ["q.sql"]
  bqConfigure := Except.ok ()
  pubsubConfigure := Except.ok ()
  targetError := none
  openFile := fun _ => Except.ok ()
  newTask := fun _ => Except.ok ()
  tasksError := none
  runTasks := RunTasksOutcome.noTasksSelected

/-- Claim C1, counterexample.  The claim states that an empty `Title` fails
with `MissingTitle` regardless of the other fields; but `NewAlert`
resolves the timestamp before calling `Validate`, so the body with empty
title and timestamp `"not-a-time"` fails with `MalformedTimestamp`, not
`MissingTitle`. -/
theorem C1_counterexample :
    NewAlert "job" (Except.ok "id") ⟨0⟩ ⟨0⟩
      (AlertBody.mk "" "" (TsValue.str "not-a-time") ()) =
      GoResult.err (AlertError.malformedTimestamp "not-a-time") ∧
    NewAlert "job" (Except.ok "id") ⟨0⟩ ⟨0⟩
      (AlertBody.mk "" "" (TsValue.str "not-a-time") ()) ≠
      GoResult.err AlertError.missingTitle := by
  constructor <;> decide

/-- Claim C1, amended.  For every `AlertBody` with empty `Title`, `NewAlert`
never returns an alert (no partial object escapes); and whenever the
timestamp resolves successfully and the identifier generator succeeds,
the failure is `MissingTitle`. -/
theorem C1_amended_empty_title :
    ∀ (α : Type) (jobID : String) (idGen : Except String String) (now1 now2 : GoTime)
      (body : AlertBody α), body.title = "" →
      (∀ a, NewAlert jobID idGen now1 now2 body ≠ GoResult.ok a) ∧
      (∀ ts aid, resolveTimestamp now1 body.timestamp = Except.ok ts →
        idGen = Except.ok aid →
        NewAlert jobID idGen now1 now2 body = GoResult.err AlertError.missingTitle) := by
  intro α jobID idGen now1 now2 body ht
  constructor
  · intro a ha
    obtain ⟨_, _, hne, _⟩ := NewAlert_ok_inv ha
    exact hne ht
  · intro ts aid hres hid
    subst hid
    unfold NewAlert
    rw [hres]
    simp [NewAlertID, AlertBody.Validate, ht]

/-- Claim C1, witness: an empty-title body with an integer timestamp is
rejected with `MissingTitle` and never yields an alert. -/
theorem C1_witness :
    (AlertBody.mk "" "" (TsValue.int 5) () : AlertBody Unit).title = "" ∧
    (∀ a, NewAlert "job" (Except.ok "id") ⟨0⟩ ⟨0⟩
      (AlertBody.mk "" "" (TsValue.int 5) ()) ≠ GoResult.ok a) ∧
    NewAlert "job" (Except.ok "id") ⟨0⟩ ⟨0⟩ (AlertBody.mk "" "" (TsValue.int 5) ()) =
      GoResult.err AlertError.missingTitle := by
  have h := C1_amended_empty_title Unit "job" (Except.ok "id") ⟨0⟩ ⟨0⟩
    (AlertBody.mk "" "" (TsValue.int 5) ()) rfl
  exact ⟨rfl, h.1, h.2 (goUnix 5 0) "id" rfl rfl⟩

/-- Claim C2, counterexample.  The claim states the float split uses
`nsec = (v - floor(v)) * 1e9` for every float, including negative ones;
but Go's `int64(v)` conversion truncates toward zero.  At the
float64-representable value `v = -3 * 2^(-32)` (whose Go-side arithmetic
is exact), the code resolves to the Unix-epoch instant `0`, while the
floor-based formula gives the instant `-1` ns: they differ. -/
theorem C2_counterexample :
    resolveTimestamp ⟨0⟩ (TsValue.float (-3) 4294967296) =
      Except.ok (goFloatTime (-3) 4294967296) ∧
    goFloatTime (-3) 4294967296 = ⟨0⟩ ∧
    specFloatTime (-3) 4294967296 = ⟨-1⟩ ∧
    goFloatTime (-3) 4294967296 ≠ specFloatTime (-3) 4294967296 := by
  refine ⟨rfl, by decide, by decide, by decide⟩

/-- Claim C2, amended.  The code splits a float timestamp as
`sec = int64(v)` (truncation toward zero) and
`nsec = int64((v - float64(sec)) * 1e9)`, where the subtraction and
multiplication are `float64` operations that round to nearest.  Whenever
`v ≥ 0` and the `float64`-computed product equals the exact value
`(v - sec) * 1e9` (stated by cross-multiplication), the result equals
the spec's floor-based formula; in particular `v = 1704165845.5` (the
fraction `3408331691 / 2`, all of whose steps are exact) resolves to
`Unix(1704165845, 500000000)`.  In general the floor formula fails even
for `v ≥ 0`: at `v = float64(0.3) = 5404319552844595 / 2 ^ 54` the
rounded product is exactly `3e8`, so the code computes
`nsec = 300000000` while the exact floor formula truncates to
`299999999`. -/
theorem C2_amended_float_split :
    (∀ (num : Int) (den : Nat), 0 ≤ num → 0 < den →
      0 < (goFloatProd num den).2 →
      (goFloatProd num den).1 * (den : Int) =
        (num - truncTowardZero num den * den) * 1000000000 *
          ((goFloatProd num den).2 : Int) →
      goFloatTime num den = specFloatTime num den) ∧
    (∀ now : GoTime, resolveTimestamp now (TsValue.float 3408331691 2) =
      Except.ok (goUnix 1704165845 500000000)) ∧
    goFloatTime 5404319552844595 18014398509481984 = ⟨300000000⟩ ∧
    specFloatTime 5404319552844595 18014398509481984 = ⟨299999999⟩ := by
  refine ⟨?_, ?_, by decide, by decide⟩
  · intro num den hnum hden hp2 hval
    have hsec : floorDiv num den = truncTowardZero num den := tdiv_eq_ediv_nonneg den hnum
    have h1 : truncTowardZero (goFloatProd num den).1 (goFloatProd num den).2 =
        truncTowardZero ((num - truncTowardZero num den * den) * 1000000000) den :=
      tdiv_congr hp2 hden hval
    simp only [goFloatTime, specFloatTime]
    rw [h1, hsec]
  · intro now
    show Except.ok (goFloatTime 3408331691 2) = _
    exact congrArg Except.ok (by decide)

/-- Claim C2, witness: at `v = 5/2` every float step is exact and the code
agrees with the floor-based split, and `1704165845.5` resolves as
specified. -/
theorem C2_witness :
    goFloatTime 5 2 = specFloatTime 5 2 ∧
    resolveTimestamp ⟨0⟩ (TsValue.float 3408331691 2) =
      Except.ok (goUnix 1704165845 500000000) :=
  ⟨C2_amended_float_split.1 5 2 (by decide) (by decide) (by decide) (by decide),
    C2_amended_float_split.2.1 ⟨0⟩⟩

/-- Claim C3: every alert returned by `NewAlert` has a non-empty title and a
timestamp different from the zero instant (given that the wall clock
`now2` is not the zero instant, which is true of any real clock), and if
the resolved timestamp was the zero instant, the alert carries `now2`. -/
theorem C3_success_invariants :
    ∀ (α : Type) (jobID : String) (idGen : Except String String) (now1 now2 : GoTime)
      (body : AlertBody α) (a : Alert α), now2 ≠ goZeroTime →
      NewAlert jobID idGen now1 now2 body = GoResult.ok a →
      a.body.title ≠ "" ∧ a.timestamp ≠ goZeroTime ∧
      ∀ ts, resolveTimestamp now1 body.timestamp = Except.ok ts → ts = goZeroTime →
        a.timestamp = now2 := by
  intro α jobID idGen now1 now2 body a hz h
  obtain ⟨ts, hres, ht, hbody, _, _, hts, _⟩ := NewAlert_ok_inv h
  refine ⟨by rw [hbody]; exact ht, ?_, ?_⟩
  · rw [hts]
    by_cases h0 : ts = goZeroTime <;> simp [h0, hz]
  · intro ts' hres' h0
    rw [hres] at hres'
    injection hres' with he
    rw [hts, if_pos (he ▸ h0)]

/-- Claim C3, witness: a successful construction with a non-zero clock has a
non-empty title and a non-zero timestamp. -/
theorem C3_witness :
    (⟨1⟩ : GoTime) ≠ goZeroTime ∧
    NewAlert "job" (Except.ok "id") ⟨5⟩ ⟨1⟩ (AlertBody.mk "t" "" TsValue.nil ()) =
      GoResult.ok { id := "id", version := AlertSchemaVersion, jobID := "job",
                    timestamp := ⟨5⟩, body := AlertBody.mk "t" "" TsValue.nil () } ∧
    ("t" : String) ≠ "" ∧ (⟨5⟩ : GoTime) ≠ goZeroTime := by
  refine ⟨by decide, by decide, ?_⟩
  have := C3_success_invariants Unit "job" (Except.ok "id") ⟨5⟩ ⟨1⟩
    (AlertBody.mk "t" "" TsValue.nil ())
    { id := "id", version := AlertSchemaVersion, jobID := "job",
      timestamp := ⟨5⟩, body := AlertBody.mk "t" "" TsValue.nil () }
    (by decide) (by decide)
  exact ⟨this.1, this.2.1⟩

/-- Claim C4, counterexample.  The claim states that string timestamps are
parsed strictly as RFC 3339; but `time.Parse(time.RFC3339, ·)` falls
back to the lenient general layout parser, which accepts a comma as the
fractional-second separator — not valid RFC 3339.  The string
`"2024-01-02T03:04:05,123Z"` therefore parses successfully (to the
instant with 123 ms), and `NewAlert` succeeds instead of failing with
`MalformedTimestamp`. -/
theorem C4_counterexample :
    parseRFC3339 "2024-01-02T03:04:05,123Z" = some (goUnix 1704164645 123000000) ∧
    resolveTimestamp ⟨0⟩ (TsValue.str "2024-01-02T03:04:05,123Z") =
      Except.ok (goUnix 1704164645 123000000) ∧
    NewAlert "job" (Except.ok "id") ⟨0⟩ ⟨0⟩
      (AlertBody.mk "t" "" (TsValue.str "2024-01-02T03:04:05,123Z") ()) ≠
      GoResult.err (AlertError.malformedTimestamp "2024-01-02T03:04:05,123Z") := by
  refine ⟨by decide, ?_, by decide⟩
  have hp : parseRFC3339 "2024-01-02T03:04:05,123Z" =
      some (goUnix 1704164645 123000000) := by decide
  simp [resolveTimestamp, hp]

/-- Claim C4, amended.  A string timestamp is parsed by
`time.Parse(time.RFC3339, ·)`, which tries a strict RFC 3339 fast path
and falls back to a lenient layout parser that also accepts some
non-RFC 3339 deviations (comma fractional separator, single-digit hour,
unchecked zone offset).  On success the resolved timestamp is exactly
the parsed instant, on failure `NewAlert` returns `MalformedTimestamp`
carrying the offending string.  Concretely, `"2024-01-02T03:04:05Z"`
parses to that exact instant, the non-RFC 3339
`"2024-01-02T03:04:05,123Z"` also parses, and `"not-a-time"` fails. -/
theorem C4_amended_string_parse :
    ∀ (s : String) (now t : GoTime),
      (parseRFC3339 s = some t →
        resolveTimestamp now (TsValue.str s) = Except.ok t) ∧
      (parseRFC3339 s = none →
        ∀ (α : Type) (jobID : String) (idGen : Except String String) (now2 : GoTime)
          (body : AlertBody α), body.timestamp = TsValue.str s →
          NewAlert jobID idGen now now2 body =
            GoResult.err (AlertError.malformedTimestamp s)) ∧
      parseRFC3339 "2024-01-02T03:04:05Z" = some (goUnix 1704164645 0) ∧
      parseRFC3339 "2024-01-02T03:04:05,123Z" = some (goUnix 1704164645 123000000) ∧
      parseRFC3339 "not-a-time" = none := by
  intro s now t
  refine ⟨?_, ?_, by decide, by decide, by decide⟩
  · intro h
    simp [resolveTimestamp, h]
  · intro h α jobID idGen now2 body hb
    unfold NewAlert
    rw [hb]
    simp [resolveTimestamp, h]

/-- Claim C4, witness: the valid RFC 3339 string resolves to its instant, and
the unparseable one makes `NewAlert` fail with `MalformedTimestamp`. -/
theorem C4_witness :
    resolveTimestamp ⟨0⟩ (TsValue.str "2024-01-02T03:04:05Z") =
      Except.ok (goUnix 1704164645 0) ∧
    NewAlert "job" (Except.ok "id") ⟨0⟩ ⟨0⟩
      (AlertBody.mk "t" "" (TsValue.str "not-a-time") ()) =
      GoResult.err (AlertError.malformedTimestamp "not-a-time") :=
  ⟨(C4_amended_string_parse "2024-01-02T03:04:05Z" ⟨0⟩ (goUnix 1704164645 0)).1
      (by decide),
    (C4_amended_string_parse "not-a-time" ⟨0⟩ ⟨0⟩).2.1 (by decide) Unit "job"
      (Except.ok "id") ⟨0⟩ _ rfl⟩

/-- Claim C5, counterexample.  The claim says an integer timestamp of any
integer shape resolves to `Unix(v, 0)`; but the code's `case int:`
matches only the dynamic type `int`.  A value of dynamic type `int64`
falls into the `default` arm: at `int64(1704165845)` resolution fails
with `UnsupportedTimestampType` rather than yielding
`Unix(1704165845, 0)`, and `NewAlert` rejects the body. -/
theorem C5_counterexample :
    resolveTimestamp ⟨0⟩ (TsValue.int64 1704165845) =
      Except.error AlertError.unsupportedTimestampType ∧
    resolveTimestamp ⟨0⟩ (TsValue.int64 1704165845) ≠
      Except.ok (goUnix 1704165845 0) ∧
    NewAlert "job" (Except.ok "id") ⟨0⟩ ⟨0⟩
      (AlertBody.mk "t" "" (TsValue.int64 1704165845) ()) =
      GoResult.err AlertError.unsupportedTimestampType := by
  refine ⟨rfl, by simp [resolveTimestamp], by decide⟩

/-- Claim C5, amended.  An integer timestamp of Go dynamic type `int`
resolves to `Unix(v, 0)` for every value `v`, in particular
`1704165845`; integer values of any other dynamic type (`int64`,
`int32`, ...) are not matched by the `case int` arm and fail with
`UnsupportedTimestampType` via the `default` arm. -/
theorem C5_amended_int_timestamp :
    ∀ (now : GoTime) (v : Int),
      resolveTimestamp now (TsValue.int v) = Except.ok (goUnix v 0) ∧
      resolveTimestamp now (TsValue.int 1704165845) = Except.ok (goUnix 1704165845 0) ∧
      resolveTimestamp now (TsValue.int64 v) =
        Except.error AlertError.unsupportedTimestampType :=
  fun _ _ => ⟨rfl, rfl, rfl⟩

/-- Claim C7: a timestamp of any other dynamic shape makes `NewAlert` fail
with `UnsupportedTimestampType`, and no alert is constructed. -/
theorem C7_unsupported_type :
    ∀ (now : GoTime),
      resolveTimestamp now TsValue.other = Except.error AlertError.unsupportedTimestampType ∧
      ∀ (α : Type) (jobID : String) (idGen : Except String String) (now2 : GoTime)
        (body : AlertBody α), body.timestamp = TsValue.other →
        NewAlert jobID idGen now now2 body = GoResult.err AlertError.unsupportedTimestampType ∧
        ∀ a, NewAlert jobID idGen now now2 body ≠ GoResult.ok a := by
  intro now
  refine ⟨rfl, ?_⟩
  intro α jobID idGen now2 body hb
  have hr : NewAlert jobID idGen now now2 body =
      GoResult.err AlertError.unsupportedTimestampType := by
    unfold NewAlert
    rw [hb]
    rfl
  exact ⟨hr, fun a ha => by rw [hr] at ha; exact absurd ha (by simp)⟩

/-- Claim C7, witness: a body whose timestamp has an unsupported dynamic type
is rejected with `UnsupportedTimestampType`. -/
theorem C7_witness :
    NewAlert "job" (Except.ok "id") ⟨0⟩ ⟨0⟩ (AlertBody.mk "t" "" TsValue.other ()) =
      GoResult.err AlertError.unsupportedTimestampType :=
  (((C7_unsupported_type ⟨0⟩).2 Unit "job" (Except.ok "id") ⟨0⟩ _ rfl)).1

/-- Claim C8: an absent (`nil`) timestamp resolves to the wall-clock time of
construction (`now1`, the `time.Now()` of the `nil` branch), and the
returned alert carries it. -/
theorem C8_nil_timestamp_now :
    ∀ (α : Type) (jobID aid : String) (now1 now2 : GoTime) (body : AlertBody α),
      body.timestamp = TsValue.nil → body.title ≠ "" → now1 ≠ goZeroTime →
      NewAlert jobID (Except.ok aid) now1 now2 body =
        GoResult.ok { id := aid, version := AlertSchemaVersion, jobID := jobID,
                      timestamp := now1, body := body } := by
  intro α jobID aid now1 now2 body hb ht hz
  unfold NewAlert
  rw [hb]
  simp [resolveTimestamp, NewAlertID, AlertBody.Validate, ht, hz]

/-- Claim C8, witness: a nil-timestamp body constructed at a realistic clock
instant carries exactly that instant. -/
theorem C8_witness :
    NewAlert "job" (Except.ok "id") ⟨1700000000000000000⟩ ⟨0⟩
      (AlertBody.mk "t" "" TsValue.nil ()) =
      GoResult.ok { id := "id", version := AlertSchemaVersion, jobID := "job",
                    timestamp := ⟨1700000000000000000⟩,
                    body := AlertBody.mk "t" "" TsValue.nil () } :=
  C8_nil_timestamp_now Unit "job" "id" ⟨1700000000000000000⟩ ⟨0⟩ _ rfl
    (by decide) (by decide)

/-- Claim C9: failure of the identifier generator is fatal (a panic), never a
normal error return: `NewAlertID` panics on generator failure (its error
type is `Empty`), and `NewAlert` with a failing generator panics whenever
the generator is actually invoked (i.e. the timestamp resolved). -/
theorem C9_idgen_failure_fatal :
    ∀ (msg : String),
      NewAlertID (Except.error msg) = GoResult.fatal ∧
      ∀ (α : Type) (jobID : String) (now1 now2 : GoTime) (body : AlertBody α) (ts : GoTime),
        resolveTimestamp now1 body.timestamp = Except.ok ts →
        NewAlert jobID (Except.error msg) now1 now2 body = GoResult.fatal := by
  intro msg
  refine ⟨rfl, ?_⟩
  intro α jobID now1 now2 body ts hres
  unfold NewAlert
  rw [hres]
  rfl

/-- Claim C9, witness: a failing generator panics both in `NewAlertID` and in
a `NewAlert` call whose timestamp resolves. -/
theorem C9_witness :
    NewAlertID (Except.error "entropy exhausted") = GoResult.fatal ∧
    NewAlert "job" (Except.error "entropy exhausted") ⟨0⟩ ⟨0⟩
      (AlertBody.mk "t" "" TsValue.nil ()) = GoResult.fatal :=
  ⟨(C9_idgen_failure_fatal "entropy exhausted").1,
    (C9_idgen_failure_fatal "entropy exhausted").2 Unit "job" ⟨0⟩ ⟨0⟩ _ ⟨0⟩ rfl⟩

/-- Claim C10: every alert returned by `NewAlert` embeds the input
`AlertBody` unchanged (including the original polymorphic timestamp
field), and the resolved instant is stored only in the alert's own
top-level timestamp field. -/
theorem C10_body_preserved :
    ∀ (α : Type) (jobID : String) (idGen : Except String String) (now1 now2 : GoTime)
      (body : AlertBody α) (a : Alert α),
      NewAlert jobID idGen now1 now2 body = GoResult.ok a →
      a.body = body ∧ a.body.timestamp = body.timestamp ∧
      ∀ ts, resolveTimestamp now1 body.timestamp = Except.ok ts →
        a.timestamp = (if ts = goZeroTime then now2 else ts) := by
  intro α jobID idGen now1 now2 body a h
  obtain ⟨ts, hres, _, hbody, _, _, hts, _⟩ := NewAlert_ok_inv h
  refine ⟨hbody, by rw [hbody], ?_⟩
  intro ts' hres'
  rw [hres] at hres'
  injection hres' with he
  rw [hts, he]

/-- Claim C10, witness: a concrete successful construction embeds the body
verbatim. -/
theorem C10_witness :
    NewAlert "job" (Except.ok "id") ⟨0⟩ ⟨0⟩
      (AlertBody.mk "t" "d" (TsValue.int 1704165845) ()) =
      GoResult.ok { id := "id", version := AlertSchemaVersion, jobID := "job",
                    timestamp := goUnix 1704165845 0,
                    body := AlertBody.mk "t" "d" (TsValue.int 1704165845) () } ∧
    ({ id := "id", version := AlertSchemaVersion, jobID := "job",
       timestamp := goUnix 1704165845 0,
       body := AlertBody.mk "t" "d" (TsValue.int 1704165845) () } : Alert Unit).body =
      AlertBody.mk "t" "d" (TsValue.int 1704165845) () := by
  refine ⟨by decide, ?_⟩
  exact (C10_body_preserved Unit "job" (Except.ok "id") ⟨0⟩ ⟨0⟩
    (AlertBody.mk "t" "d" (TsValue.int 1704165845) ())
    { id := "id", version := AlertSchemaVersion, jobID := "job",
      timestamp := goUnix 1704165845 0,
      body := AlertBody.mk "t" "d" (TsValue.int 1704165845) () } (by decide)).1

/-- Claim C6, counterexample.  The claim states that a failure with
`InvalidTarget` aborts before any I/O; but in the `run` command the query
directory is listed and both external clients are configured before the
target is validated.  In an environment where the target is invalid, the
command fails with `InvalidTarget` after three I/O steps. -/
theorem C6_counterexample :
    (runCommand envBadTarget).2 = some (RunError.invalidTarget "empty id in target") ∧
    RunStep.readQueryDir ∈ (runCommand envBadTarget).1 ∧
    RunStep.configureBigQuery ∈ (runCommand envBadTarget).1 ∧
    RunStep.configurePubSub ∈ (runCommand envBadTarget).1 ∧
    isIOStep RunStep.readQueryDir = true ∧
    isIOStep RunStep.configureBigQuery = true ∧
    isIOStep RunStep.configurePubSub = true := by
  refine ⟨by decide, by decide, by decide, by decide, rfl, rfl, rfl⟩

/-- Claim C6, amended.  When the `run` command fails with `InvalidTarget`,
the steps performed are exactly: read the query directory, configure the
BigQuery client, configure the Pub/Sub client, validate the target — so
no query file has been opened and the tasks have not been run, but the
directory listing and client configuration I/O has already happened; and
when it fails with `NoTasksSelected`, the `RunTasks` invocation (where
selection happens) is in the trace. -/
theorem C6_amended_fail_fast_order :
    ∀ (env : RunEnv) (m : String),
      ((runCommand env).2 = some (RunError.invalidTarget m) →
        (runCommand env).1 = [RunStep.readQueryDir, RunStep.configureBigQuery,
          RunStep.configurePubSub, RunStep.validateTarget]) ∧
      ((runCommand env).2 = some RunError.noTasksSelected →
        RunStep.runTasks ∈ (runCommand env).1) := by
  intro env m
  unfold runCommand
  rcases hqf : env.queryFiles with qm | files
  · simp
  · simp only
    by_cases hemp : files.isEmpty
    · simp [hemp]
    · simp only [hemp, Bool.false_eq_true, if_false]
      rcases hbq : env.bqConfigure with bm | bu
      · simp
      · rcases hps : env.pubsubConfigure with pm | pu
        · simp
        · rcases hte : env.targetError with _ | tm
          · simp only
            constructor
            · intro h
              exact absurd h (runTail_snd_ne_invalidTarget env files _ m)
            · intro h
              exact runTail_noTasksSelected_mem env files _ h
          · simp

/-- Claim C6, witness: in the invalid-target environment the trace is exactly
the four pre-file steps, and in the no-tasks environment the `RunTasks`
step is in the trace. -/
theorem C6_witness :
    (runCommand envBadTarget).2 = some (RunError.invalidTarget "empty id in target") ∧
    (runCommand envBadTarget).1 = [RunStep.readQueryDir, RunStep.configureBigQuery,
      RunStep.configurePubSub, RunStep.validateTarget] ∧
    (runCommand envNoTasks).2 = some RunError.noTasksSelected ∧
    RunStep.runTasks ∈ (runCommand envNoTasks).1 :=
  ⟨by decide,
    (C6_amended_fail_fast_order envBadTarget "empty id in target").1 (by decide),
    by decide,
    (C6_amended_fail_fast_order envNoTasks "x").2 (by decide)⟩

end Overseer
